import Mathlib

/-! The bettercap HTTP proxy core (`modules/http_proxy_base.go`).

A shallow embedding of `HTTPProxy`: its constructor with the three handlers it
registers on the goproxy server, `logAction`, `doProxy`, `Configure`,
`ConfigureTLS` and `Stop`.

Conventions of the embedding.

* Go strings are Lean `String`s; `len` of a Go string is its byte length
  (`String.utf8ByteSize`).  `strings.HasPrefix` and `strings.Split` compare
  bytes; on well-formed UTF-8 text with an ASCII needle this is the same as
  comparing characters, which is what the model does.
* A method that mutates the receiver returns the new receiver.
* Every call that leaves the file (the logger, the event queue, the script
  hooks, the firewall, the goproxy server, the HTTP server) is recorded, in
  program order, in a list of `Effect`s.  The values those calls answer with
  are inputs of the model (`Env`, `ProxyScript`).
-/

namespace Bettercap

/-! ## Go library functions -/

/-- Go `strings.HasPrefix(s, pre)`:
`len(s) >= len(pre) && s[0:len(pre)] == pre`. -/
def HasPrefix (s pre : String) : Bool :=
  decide (pre.data.length ≤ s.data.length) && (s.data.take pre.data.length == pre.data)

/-- Go `strings.Split` for a one-byte separator, on character lists: the pieces
of the text between the occurrences of `sep`.  A text without `sep` gives one
piece, the text itself (also when it is empty). -/
def splitChars (sep : Char) : List Char → List (List Char)
  | [] => [[]]
  | c :: cs =>
    if c = sep then [] :: splitChars sep cs
    else
      match splitChars sep cs with
      | [] => [[c]]
      | piece :: rest => (c :: piece) :: rest

/-- Go `strings.Split(s, sep)` for a one-byte separator. -/
def Split (s : String) (sep : Char) : List String :=
  (splitChars sep s.data).map String.mk

/-- Go `len(s)` on a string: the number of bytes. -/
def len (s : String) : Int :=
  Int.ofNat s.utf8ByteSize

/-! ## Data -/

/-- The fields of `*http.Request` that the proxy reads or writes.  `URLHost`
and `URLPath` are `req.URL.Host` and `req.URL.Path`. -/
structure Request where
  RemoteAddr : String
  Method : String
  Host : String
  URLHost : String
  URLPath : String
deriving DecidableEq, Repr

/-- The fields of `*http.Response` that matter here.  `Request` is the request
the response answers (`res.Request`), which the transport sets on every
response it returns. -/
structure Response where
  Request : Request
  StatusCode : Int
  Body : String
deriving DecidableEq, Repr

/-- Modelled from the spec: the type `JSResponse` (declared in another file of
the package) is the InterceptionResult, "status code, header mapping, byte
payload, and an implicit size derived from the payload". -/
structure JSResponse where
  Status : Int
  Headers : List (String × String)
  Body : String
deriving DecidableEq, Repr

/-- Modelled from the spec: `firewall.Redirection` (declared in another
package of the repository), "interface name, protocol, source port (public),
destination address/port". -/
structure Redirection where
  Interface : String
  Protocol : String
  SrcPort : Int
  DstAddress : String
  DstPort : Int
deriving DecidableEq, Repr

/-- Modelled from the spec: `firewall.NewRedirection(iface, proto, port_from,
addr_to, port_to)` builds the descriptor from its five arguments, in the order
of the call in `Configure`. -/
def NewRedirection (iface proto : String) (portFrom : Int) (addrTo : String)
    (portTo : Int) : Redirection :=
  { Interface := iface, Protocol := proto, SrcPort := portFrom,
    DstAddress := addrTo, DstPort := portTo }

/-- The anonymous struct that `logAction` hands to the event queue. -/
structure SpoofedResponse where
  To : String
  Method : String
  Host : String
  Path : String
  Size : Int
deriving DecidableEq, Repr

/-- The levels of the `log` package used in the file. -/
inductive LogLevel where
  | debug
  | info
  | warning
  | error
deriving DecidableEq, Repr

/-- A Go `error` value. -/
abbrev Error := String

/-- One call that leaves the file.  Log calls keep their level and format
string; their arguments are not recorded. -/
inductive Effect where
  | log (level : LogLevel) (format : String)
  | eventsAdd (tag : String) (data : SpoofedResponse)
  | scriptOnRequest (req : Request)
  | scriptOnResponse (res : Response)
  | proxyServeHTTP (req : Request)
  | loadProxyScript (path : String)
  | isForwardingEnabled
  | enableForwarding (enabled : Bool)
  | enableRedirection (r : Redirection) (enabled : Bool)
  | serverShutdown
deriving DecidableEq, Repr

/-- The two hooks of a loaded `*ProxyScript`, as the answers they give: `none`
is Go's `nil` result. -/
structure ProxyScript where
  OnRequest : Request → Option JSResponse
  OnResponse : Response → Option JSResponse

/-- What `*session.Session` provides without an effect: the name of the
interface (`sess.Interface.Name()`). -/
structure Session where
  InterfaceName : String
deriving DecidableEq, Repr

/-- The field `Addr` of `http.Server`; its `Handler` is always `p.Proxy`. -/
structure Server where
  Addr : String
deriving DecidableEq, Repr

/-- The struct `HTTPProxy`; `Proxy` is the goproxy server, whose handlers are
the three functions below. -/
structure HTTPProxy where
  Address : String
  Server : Server
  Redirection : Option Redirection
  Script : Option ProxyScript
  CertFile : String
  KeyFile : String
  isTLS : Bool
  sess : Session

/-- The answers of the outside world to the calls one method makes: each of
them is called at most once per method call. -/
structure Env where
  loadProxyScript : String → Option Error × Option ProxyScript
  isForwardingEnabled : Bool
  enableRedirection : Redirection → Bool → Option Error
  shutdown : Option Error

/-! ## The methods -/

/-- The struct literal of `NewHTTPProxy`: every field not named there is Go's
zero value. -/
def NewHTTPProxy (s : Session) : HTTPProxy :=
  { Address := "", Server := { Addr := "" }, Redirection := none, Script := none,
    CertFile := "", KeyFile := "", isTLS := false, sess := s }

/-- `strings.Split(req.RemoteAddr, ":")[0]`. -/
def remoteHost (req : Request) : String :=
  (Split req.RemoteAddr ':').headD ""

/-- `HTTPProxy.logAction`: one `Events.Add`. -/
def logAction (_p : HTTPProxy) (req : Request) (jsres : JSResponse) : List Effect :=
  [Effect.eventsAdd "http.proxy.spoofed-response"
    { To := remoteHost req, Method := req.Method, Host := req.Host,
      Path := req.URLPath, Size := len jsres.Body }]

/-- The local `blacklist` of `doProxy`. -/
def blacklist : List String := ["localhost", "127.0.0.1"]

/-- The `for ... range blacklist` loop of `doProxy`: `some` is the return
inside the loop, `none` is falling out of it. -/
def doProxyLoop (host : String) : List String → Option (Bool × List Effect)
  | [] => none
  | blacklisted :: rest =>
    if HasPrefix host blacklisted then
      some (false, [Effect.log LogLevel.error "Got request with blacklisted host: %s"])
    else doProxyLoop host rest

/-- `HTTPProxy.doProxy`. -/
def doProxy (_p : HTTPProxy) (req : Request) : Bool × List Effect :=
  if req.Host = "" then
    (false, [Effect.log LogLevel.error "Got request with empty host: %v"])
  else
    match doProxyLoop req.Host blacklist with
    | some r => r
    | none => (true, [])

/-- The `NonproxyHandler` set in `NewHTTPProxy`: the request as it is after the
handler, and the calls made. -/
def NonproxyHandler (p : HTTPProxy) (req : Request) : Request × List Effect :=
  let r := doProxy p req
  if r.1 = true then
    let req1 := { req with URLHost := req.Host }
    (req1, r.2 ++ [Effect.proxyServeHTTP req1])
  else (req, r.2)

/-- The function given to `p.Proxy.OnRequest().DoFunc`.  `ToResponse` is the
method `JSResponse.ToResponse`, declared in another file of the package. -/
def OnRequest (ToResponse : JSResponse → Request → Response) (p : HTTPProxy)
    (req : Request) : (Request × Option Response) × List Effect :=
  match p.Script with
  | some script =>
    match script.OnRequest req with
    | some jsres =>
      ((req, some (ToResponse jsres req)),
        Effect.scriptOnRequest req :: logAction p req jsres)
    | none => ((req, none), [Effect.scriptOnRequest req])
  | none => ((req, none), [])

/-- The function given to `p.Proxy.OnResponse().DoFunc`. -/
def OnResponse (ToResponse : JSResponse → Request → Response) (p : HTTPProxy)
    (res : Response) : Response × List Effect :=
  match p.Script with
  | some script =>
    match script.OnResponse res with
    | some jsres =>
      (ToResponse jsres res.Request,
        Effect.scriptOnResponse res :: logAction p res.Request jsres)
    | none => (res, [Effect.scriptOnResponse res])
  | none => (res, [])

/-- The first part of `Configure`: the address and the optional script.  The
assignment `err, p.Script = LoadProxyScript(...)` stores the second result
whatever the first is. -/
def configureScript (p : HTTPProxy) (env : Env) (address scriptPath : String) :
    Option Error × HTTPProxy × List Effect :=
  let p1 := { p with Address := address }
  if scriptPath ≠ "" then
    let r := env.loadProxyScript scriptPath
    let p2 := { p1 with Script := r.2 }
    match r.1 with
    | some err => (some err, p2, [Effect.loadProxyScript scriptPath])
    | none =>
      (none, p2, [Effect.loadProxyScript scriptPath,
        Effect.log LogLevel.debug "Proxy script %s loaded."])
  else (none, p1, [])

/-- `HTTPProxy.Configure`: the returned error, the receiver afterwards and the
calls made. -/
def Configure (p : HTTPProxy) (env : Env) (address : String) (proxyPort httpPort : Int)
    (scriptPath : String) : Option Error × HTTPProxy × List Effect :=
  match configureScript p env address scriptPath with
  | (some err, p1, t1) => (some err, p1, t1)
  | (none, p1, t1) =>
    let p2 := { p1 with Server := { Addr := p1.Address ++ ":" ++ toString proxyPort } }
    let t2 :=
      if env.isForwardingEnabled = false then
        [Effect.isForwardingEnabled, Effect.log LogLevel.info "Enabling forwarding.",
          Effect.enableForwarding true]
      else [Effect.isForwardingEnabled]
    let r := NewRedirection p2.sess.InterfaceName "TCP" httpPort p2.Address proxyPort
    let p3 := { p2 with Redirection := some r }
    match env.enableRedirection r true with
    | some err => (some err, p3, t1 ++ t2 ++ [Effect.enableRedirection r true])
    | none =>
      (none, p3, t1 ++ t2 ++ [Effect.enableRedirection r true,
        Effect.log LogLevel.debug "Applied redirection %s"])

/-- `HTTPProxy.ConfigureTLS`. -/
def ConfigureTLS (p : HTTPProxy) (env : Env) (address : String) (proxyPort httpPort : Int)
    (scriptPath certFile keyFile : String) : Option Error × HTTPProxy × List Effect :=
  match Configure p env address proxyPort httpPort scriptPath with
  | (some err, p1, t1) => (some err, p1, t1)
  | (none, p1, t1) =>
    (none, { p1 with isTLS := true, CertFile := certFile, KeyFile := keyFile }, t1)

/-- `HTTPProxy.Stop`: the returned error, the receiver afterwards and the calls
made. -/
def Stop (p : HTTPProxy) (env : Env) : Option Error × HTTPProxy × List Effect :=
  match p.Redirection with
  | some r =>
    match env.enableRedirection r false with
    | some err =>
      (some err, p, [Effect.log LogLevel.debug "Disabling redirection %s",
        Effect.enableRedirection r false])
    | none =>
      (env.shutdown, { p with Redirection := none },
        [Effect.log LogLevel.debug "Disabling redirection %s",
          Effect.enableRedirection r false, Effect.serverShutdown])
  | none => (env.shutdown, p, [Effect.serverShutdown])

/-! ## Reading a list of calls -/

/-- The records added to the event queue, with their tags, in order. -/
def eventsOf : List Effect → List (String × SpoofedResponse)
  | [] => []
  | Effect.eventsAdd tag data :: rest => (tag, data) :: eventsOf rest
  | _ :: rest => eventsOf rest

/-- The descriptors of the removal calls (`EnableRedirection(r, false)`), in
order. -/
def removalsOf : List Effect → List Redirection
  | [] => []
  | Effect.enableRedirection r false :: rest => r :: removalsOf rest
  | _ :: rest => removalsOf rest

/-- Whether a call is one of the two script hooks. -/
def isHook : Effect → Bool
  | Effect.scriptOnRequest _ => true
  | Effect.scriptOnResponse _ => true
  | _ => false

/-- Whether a call hands the request to the goproxy server for forwarding. -/
def isForward : Effect → Bool
  | Effect.proxyServeHTTP _ => true
  | _ => false

/-! ## Sample values -/

/-- A session on interface eth0. -/
def sampleSession : Session := { InterfaceName := "eth0" }

/-- A builder for `JSResponse.ToResponse`: status and body of the result,
answering the given request. -/
def sampleToResponse (jsres : JSResponse) (req : Request) : Response :=
  { Request := req, StatusCode := jsres.Status, Body := jsres.Body }

/-- A 403 result with body "blocked". -/
def blocked : JSResponse := { Status := 403, Headers := [], Body := "blocked" }

/-- A script whose request hook answers every request with `blocked` and whose
response hook yields nothing. -/
def blockingScript : ProxyScript :=
  { OnRequest := fun _ => some blocked, OnResponse := fun _ => none }

/-- A script whose response hook answers every response with `blocked` and
whose request hook yields nothing. -/
def rewritingScript : ProxyScript :=
  { OnRequest := fun _ => none, OnResponse := fun _ => some blocked }

/-- A GET request for path / from client 10.0.0.5, port 4242. -/
def sampleRequest (host : String) : Request :=
  { RemoteAddr := "10.0.0.5:4242", Method := "GET", Host := host, URLHost := "",
    URLPath := "/" }

/-- A proxy-style request, `GET http://host/` sent to the proxy port by client
10.0.0.5: the URL is absolute, so it carries the host too. -/
def proxyStyleRequest (host : String) : Request :=
  { RemoteAddr := "10.0.0.5:4242", Method := "GET", Host := host, URLHost := host,
    URLPath := "/" }

/-- An upstream 200 response to `sampleRequest host`. -/
def sampleResponse (host : String) : Response :=
  { Request := sampleRequest host, StatusCode := 200, Body := "hello" }

/-- A world in which every call succeeds and forwarding is already on. -/
def envOk : Env :=
  { loadProxyScript := fun _ => (none, some blockingScript),
    isForwardingEnabled := true,
    enableRedirection := fun _ _ => none,
    shutdown := none }

/-- A world in which the firewall refuses every redirection change. -/
def envFirewallFails : Env :=
  { loadProxyScript := fun _ => (none, some blockingScript),
    isForwardingEnabled := false,
    enableRedirection := fun _ _ => some "firewall: command failed",
    shutdown := none }

/-- A fresh proxy with `blockingScript` loaded. -/
def blockingProxy : HTTPProxy :=
  { NewHTTPProxy sampleSession with Script := some blockingScript }

/-- A fresh proxy with `rewritingScript` loaded. -/
def rewritingProxy : HTTPProxy :=
  { NewHTTPProxy sampleSession with Script := some rewritingScript }

/-- A fresh proxy after a successful `Configure` for address 10.0.0.1, proxy
port 8080 and public port 80, without a script. -/
def configuredProxy : HTTPProxy :=
  (Configure (NewHTTPProxy sampleSession) envOk "10.0.0.1" 8080 80 "").2.1

/-- A world in which `LoadProxyScript` fails: it answers with an error and no
script. -/
def envLoadFails : Env :=
  { loadProxyScript := fun _ => (some "script: cannot load", none),
    isForwardingEnabled := true,
    enableRedirection := fun _ _ => none,
    shutdown := none }

/-- A fresh proxy configured with the script path "block.js", which loads
`blockingScript`, and then stopped. -/
def scriptedProxy : HTTPProxy :=
  (Stop (Configure (NewHTTPProxy sampleSession) envOk "10.0.0.1" 8080 80 "block.js").2.1
    envOk).2.1

/-- `scriptedProxy` after a `Configure` with the script path "missing.js" whose
load fails. -/
def failedReloadProxy : HTTPProxy :=
  (Configure scriptedProxy envLoadFails "10.0.0.1" 8080 80 "missing.js").2.1

/-- The install calls (`EnableRedirection(r, true)`), in order. -/
def installsOf : List Effect → List Redirection
  | [] => []
  | Effect.enableRedirection r true :: rest => r :: installsOf rest
  | _ :: rest => installsOf rest

/-! ## Library lemmas -/

/-- `HasPrefix s pre` holds exactly when `s` is `pre` followed by some text. -/
theorem HasPrefix_iff (s pre : String) :
    HasPrefix s pre = true ↔ ∃ t : String, s = pre ++ t := by
  unfold HasPrefix
  simp only [Bool.and_eq_true, decide_eq_true_eq, beq_iff_eq]
  constructor
  · rintro ⟨_, h⟩
    refine ⟨String.mk (s.data.drop pre.data.length), ?_⟩
    apply String.ext
    rw [String.data_append]
    conv_lhs => rw [← List.take_append_drop pre.data.length s.data]
    rw [h]
  · rintro ⟨t, rfl⟩
    simp [String.data_append]

/-- `strings.Split` never returns an empty slice, so index 0 is in range. -/
theorem splitChars_ne_nil (sep : Char) (cs : List Char) : splitChars sep cs ≠ [] := by
  cases cs with
  | nil => simp [splitChars]
  | cons c cs =>
    unfold splitChars
    split
    · simp
    · split <;> simp

/-- The first piece of a text `host ++ sep :: rest` whose `host` has no
separator is `host`. -/
theorem splitChars_head (sep : Char) (host rest : List Char) (h : sep ∉ host) :
    (splitChars sep (host ++ sep :: rest)).head? = some host := by
  induction host with
  | nil => simp [splitChars]
  | cons c cs ih =>
    have hc : c ≠ sep := fun e => h (by simp [e])
    have hcs : sep ∉ cs := fun e => h (by simp [e])
    have ih1 := ih hcs
    simp only [List.cons_append, splitChars, hc, if_false]
    cases hsp : splitChars sep (cs ++ sep :: rest) with
    | nil => exact absurd hsp (splitChars_ne_nil _ _)
    | cons piece more =>
      rw [hsp] at ih1
      simp only [List.head?_cons, Option.some.injEq] at ih1
      simp [ih1]

/-- For a client address `host:port` whose host has no colon, the recorded
client is `host`. -/
theorem remoteHost_host_port (req : Request) (host port : String)
    (haddr : req.RemoteAddr = host ++ ":" ++ port) (hcolon : ':' ∉ host.data) :
    remoteHost req = host := by
  unfold remoteHost Split
  rw [haddr]
  have h := splitChars_head ':' host.data port.data hcolon
  have e : (host ++ ":" ++ port).data = host.data ++ ':' :: port.data := by
    simp [String.data_append]
  rw [e]
  cases hsp : splitChars ':' (host.data ++ ':' :: port.data) with
  | nil => exact absurd hsp (splitChars_ne_nil _ _)
  | cons piece more =>
    rw [hsp] at h
    simp only [List.head?_cons, Option.some.injEq] at h
    simp [h]

/-- The value `doProxy` returns, as a Boolean formula of the three tests. -/
theorem doProxy_result (p : HTTPProxy) (req : Request) :
    (doProxy p req).1 =
      !(decide (req.Host = "") || HasPrefix req.Host "localhost" ||
        HasPrefix req.Host "127.0.0.1") := by
  unfold doProxy
  by_cases h0 : req.Host = ""
  · simp [h0]
  · simp only [h0, if_false, blacklist, doProxyLoop]
    cases h1 : HasPrefix req.Host "localhost" <;>
      cases h2 : HasPrefix req.Host "127.0.0.1" <;> simp

/-- The calls `doProxy` makes are log calls only. -/
theorem doProxy_calls (p : HTTPProxy) (req : Request) :
    ∀ e ∈ (doProxy p req).2, ∃ level format, e = Effect.log level format := by
  unfold doProxy
  by_cases h0 : req.Host = ""
  · simp [h0]
  · simp only [h0, if_false, blacklist, doProxyLoop]
    cases h1 : HasPrefix req.Host "localhost" <;>
      cases h2 : HasPrefix req.Host "127.0.0.1" <;> simp

/-- On the non-proxy path a request that `doProxy` rejects is not handed to the
goproxy server, reaches no hook and adds no event. -/
theorem NonproxyHandler_rejected (p : HTTPProxy) (req : Request)
    (h : (doProxy p req).1 = false) :
    (NonproxyHandler p req).1 = req ∧
      (∀ e ∈ (NonproxyHandler p req).2, isForward e = false ∧ isHook e = false) ∧
      eventsOf (NonproxyHandler p req).2 = [] := by
  have hc := doProxy_calls p req
  have hn : NonproxyHandler p req = (req, (doProxy p req).2) := by
    simp [NonproxyHandler, h]
  rw [hn]
  refine ⟨rfl, ?_, ?_⟩
  · intro e he
    obtain ⟨l, f, rfl⟩ := hc e he
    exact ⟨rfl, rfl⟩
  · simp only
    generalize (doProxy p req).2 = t at hc
    induction t with
    | nil => rfl
    | cons a t ih =>
      obtain ⟨l, f, rfl⟩ := hc _ (List.mem_cons_self _ _)
      simp only [eventsOf]
      exact ih (fun e he => hc e (List.mem_cons_of_mem _ he))

/-- An admitted request on the non-proxy path has its URL host set to its Host
header and is handed to the goproxy server once. -/
theorem NonproxyHandler_admitted (p : HTTPProxy) (req : Request)
    (h : (doProxy p req).1 = true) :
    NonproxyHandler p req =
      ({ req with URLHost := req.Host },
        (doProxy p req).2 ++ [Effect.proxyServeHTTP { req with URLHost := req.Host }]) := by
  simp [NonproxyHandler, h]

/-- The one record `logAction` adds: its tag and its five fields. -/
theorem logAction_record (p : HTTPProxy) (req : Request) (jsres : JSResponse) :
    eventsOf (logAction p req jsres) =
      [("http.proxy.spoofed-response",
        { To := remoteHost req, Method := req.Method, Host := req.Host,
          Path := req.URLPath, Size := Int.ofNat jsres.Body.utf8ByteSize })] := by
  rfl

/-! ## Host admissibility -/

/-- Claim C1: `doProxy` returns false exactly when the Host is empty or starts
with "localhost" or "127.0.0.1", and true for every other Host; so
"127.0.0.100.evil.com" and "localhost.example.com" are rejected and
"example.com" is admitted. -/
theorem doProxy_false_iff :
    (∀ (p : HTTPProxy) (req : Request),
      ((doProxy p req).1 = false ↔
        (req.Host = "" ∨ (∃ t : String, req.Host = "localhost" ++ t) ∨
          (∃ t : String, req.Host = "127.0.0.1" ++ t))) ∧
      ((doProxy p req).1 = true ↔
        ¬ (req.Host = "" ∨ (∃ t : String, req.Host = "localhost" ++ t) ∨
          (∃ t : String, req.Host = "127.0.0.1" ++ t)))) ∧
    (∀ (p : HTTPProxy) (req : Request),
      (doProxy p { req with Host := "127.0.0.100.evil.com" }).1 = false ∧
      (doProxy p { req with Host := "localhost.example.com" }).1 = false ∧
      (doProxy p { req with Host := "example.com" }).1 = true) := by
  refine ⟨?_, ?_⟩
  · intro p req
    have key : (doProxy p req).1 = false ↔
        (req.Host = "" ∨ (∃ t : String, req.Host = "localhost" ++ t) ∨
            (∃ t : String, req.Host = "127.0.0.1" ++ t)) := by
      rw [doProxy_result, ← HasPrefix_iff, ← HasPrefix_iff]
      by_cases h0 : req.Host = "" <;>
        cases h1 : HasPrefix req.Host "localhost" <;>
        cases h2 : HasPrefix req.Host "127.0.0.1" <;> simp [h0]
    refine ⟨key, ?_⟩
    rw [← key]
    cases (doProxy p req).1 <;> simp
  · intro p req
    refine ⟨?_, ?_, ?_⟩ <;> rw [doProxy_result] <;> dsimp only <;> decide

/-- Claim C2, the code at a proxy-style request for Host "localhost": `doProxy`
rejects that Host and the non-proxy handler only logs, yet the handler
registered with `OnRequest().DoFunc` does not consult `doProxy`.  It invokes
the request hook; when the hook yields a result it adds an event and returns
the synthesized response, and when the hook yields nothing it returns the
request with no response, which lets the goproxy server forward it. -/
theorem OnRequest_localhost_reaches_hook :
    (doProxy blockingProxy (proxyStyleRequest "localhost")).1 = false ∧
    (NonproxyHandler blockingProxy (proxyStyleRequest "localhost")).2 =
      [Effect.log LogLevel.error "Got request with blacklisted host: %s"] ∧
    (OnRequest sampleToResponse blockingProxy (proxyStyleRequest "localhost")).2 =
      [Effect.scriptOnRequest (proxyStyleRequest "localhost"),
        Effect.eventsAdd "http.proxy.spoofed-response"
          { To := "10.0.0.5", Method := "GET", Host := "localhost", Path := "/",
            Size := 7 }] ∧
    (OnRequest sampleToResponse blockingProxy (proxyStyleRequest "localhost")).1 =
      (proxyStyleRequest "localhost",
        some { Request := proxyStyleRequest "localhost", StatusCode := 403,
               Body := "blocked" }) ∧
    OnRequest sampleToResponse rewritingProxy (proxyStyleRequest "localhost") =
      ((proxyStyleRequest "localhost", none),
        [Effect.scriptOnRequest (proxyStyleRequest "localhost")]) := by
  decide

/-! ## The two hook handlers -/

/-- Claim C4: with a script configured, when the request hook (resp. response
hook) yields a result R, the request handler (resp. response handler) returns
the response built from R for the request (resp. for the originating request
of the response), not the real one, after one hook call and one `logAction`
call with that request and R. -/
theorem handlers_synthesize (ToResponse : JSResponse → Request → Response)
    (p : HTTPProxy) (script : ProxyScript) (hs : p.Script = some script) :
    (∀ (req : Request) (R : JSResponse), script.OnRequest req = some R →
      OnRequest ToResponse p req =
        ((req, some (ToResponse R req)),
          Effect.scriptOnRequest req :: logAction p req R) ∧
      eventsOf (OnRequest ToResponse p req).2 = eventsOf (logAction p req R) ∧
      (eventsOf (OnRequest ToResponse p req).2).length = 1) ∧
    (∀ (res : Response) (R : JSResponse), script.OnResponse res = some R →
      OnResponse ToResponse p res =
        (ToResponse R res.Request,
          Effect.scriptOnResponse res :: logAction p res.Request R) ∧
      eventsOf (OnResponse ToResponse p res).2 = eventsOf (logAction p res.Request R) ∧
      (eventsOf (OnResponse ToResponse p res).2).length = 1) := by
  constructor
  · intro req R hR
    have e : OnRequest ToResponse p req =
        ((req, some (ToResponse R req)),
          Effect.scriptOnRequest req :: logAction p req R) := by
      simp [OnRequest, hs, hR]
    rw [e]
    exact ⟨rfl, rfl, rfl⟩
  · intro res R hR
    have e : OnResponse ToResponse p res =
        (ToResponse R res.Request,
          Effect.scriptOnResponse res :: logAction p res.Request R) := by
      simp [OnResponse, hs, hR]
    rw [e]
    exact ⟨rfl, rfl, rfl⟩

/-- Claim C4 at `blockingProxy` and a request for "ads.example.com", and at
`rewritingProxy` and an upstream response: each handler returns the 403
response built from `blocked`. -/
theorem handlers_synthesize_witness :
    blockingProxy.Script = some blockingScript ∧
    blockingScript.OnRequest (sampleRequest "ads.example.com") = some blocked ∧
    OnRequest sampleToResponse blockingProxy (sampleRequest "ads.example.com") =
      ((sampleRequest "ads.example.com",
          some (sampleToResponse blocked (sampleRequest "ads.example.com"))),
        Effect.scriptOnRequest (sampleRequest "ads.example.com") ::
          logAction blockingProxy (sampleRequest "ads.example.com") blocked) ∧
    OnResponse sampleToResponse rewritingProxy (sampleResponse "example.com") =
      (sampleToResponse blocked (sampleRequest "example.com"),
        Effect.scriptOnResponse (sampleResponse "example.com") ::
          logAction rewritingProxy (sampleRequest "example.com") blocked) :=
  ⟨rfl, rfl,
    ((handlers_synthesize sampleToResponse blockingProxy blockingScript rfl).1
      (sampleRequest "ads.example.com") blocked rfl).1,
    ((handlers_synthesize sampleToResponse rewritingProxy rewritingScript rfl).2
      (sampleResponse "example.com") blocked rfl).1⟩

/-- Claim C5: without a script neither hook is invoked; without a script, or
when the hook yields nothing, the request handler returns the same request and
no response, the response handler returns the response it was given, and no
event is added.  So a handler adds an event only if a hook returned a
result. -/
theorem handlers_pass_through (ToResponse : JSResponse → Request → Response)
    (p : HTTPProxy) (req : Request) (res : Response) :
    (p.Script = none →
      OnRequest ToResponse p req = ((req, none), []) ∧
      OnResponse ToResponse p res = (res, [])) ∧
    ((p.Script = none ∨ ∃ script, p.Script = some script ∧ script.OnRequest req = none) →
      (OnRequest ToResponse p req).1 = (req, none) ∧
      eventsOf (OnRequest ToResponse p req).2 = []) ∧
    ((p.Script = none ∨ ∃ script, p.Script = some script ∧ script.OnResponse res = none) →
      (OnResponse ToResponse p res).1 = res ∧
      eventsOf (OnResponse ToResponse p res).2 = []) ∧
    (eventsOf (OnRequest ToResponse p req).2 ≠ [] →
      ∃ script R, p.Script = some script ∧ script.OnRequest req = some R) ∧
    (eventsOf (OnResponse ToResponse p res).2 ≠ [] →
      ∃ script R, p.Script = some script ∧ script.OnResponse res = some R) := by
  refine ⟨?_, ?_, ?_, ?_, ?_⟩
  · intro h
    simp [OnRequest, OnResponse, h]
  · rintro (h | ⟨script, h, hn⟩)
    · simp [OnRequest, h, eventsOf]
    · simp [OnRequest, h, hn, eventsOf]
  · rintro (h | ⟨script, h, hn⟩)
    · simp [OnResponse, h, eventsOf]
    · simp [OnResponse, h, hn, eventsOf]
  · intro h
    cases hs : p.Script with
    | none => simp [OnRequest, hs, eventsOf] at h
    | some script =>
      cases hR : script.OnRequest req with
      | none => simp [OnRequest, hs, hR, eventsOf] at h
      | some R => exact ⟨script, R, rfl, hR⟩
  · intro h
    cases hs : p.Script with
    | none => simp [OnResponse, hs, eventsOf] at h
    | some script =>
      cases hR : script.OnResponse res with
      | none => simp [OnResponse, hs, hR, eventsOf] at h
      | some R => exact ⟨script, R, rfl, hR⟩

/-- Claim C5 at a fresh proxy, which has no script: both handlers pass the
message through and make no call. -/
theorem handlers_pass_through_witness :
    (NewHTTPProxy sampleSession).Script = none ∧
    OnRequest sampleToResponse (NewHTTPProxy sampleSession) (sampleRequest "example.com") =
      ((sampleRequest "example.com", none), []) ∧
    OnResponse sampleToResponse (NewHTTPProxy sampleSession) (sampleResponse "example.com") =
      (sampleResponse "example.com", []) :=
  ⟨rfl,
    (handlers_pass_through sampleToResponse (NewHTTPProxy sampleSession)
      (sampleRequest "example.com") (sampleResponse "example.com")).1 rfl⟩

/-- The handlers read the receiver through its `Script` field only. -/
theorem OnRequest_congr (ToResponse : JSResponse → Request → Response)
    (p q : HTTPProxy) (h : p.Script = q.Script) (req : Request) :
    OnRequest ToResponse p req = OnRequest ToResponse q req := by
  unfold OnRequest logAction
  rw [h]

/-- The response handler reads the receiver through its `Script` field only. -/
theorem OnResponse_congr (ToResponse : JSResponse → Request → Response)
    (p q : HTTPProxy) (h : p.Script = q.Script) (res : Response) :
    OnResponse ToResponse p res = OnResponse ToResponse q res := by
  unfold OnResponse logAction
  rw [h]

/-- With a script set, the request handler invokes the request hook on every
request it is given, and it never invokes the response hook. -/
theorem OnRequest_invokes_hook (ToResponse : JSResponse → Request → Response)
    (p : HTTPProxy) (script : ProxyScript) (hs : p.Script = some script) (req : Request) :
    Effect.scriptOnRequest req ∈ (OnRequest ToResponse p req).2 ∧
      ∀ res, Effect.scriptOnResponse res ∉ (OnRequest ToResponse p req).2 := by
  cases hR : script.OnRequest req <;> simp [OnRequest, hs, hR, logAction]

/-- With a script set, the response handler invokes the response hook on every
response it is given: it has no test of where the response comes from. -/
theorem OnResponse_invokes_hook (ToResponse : JSResponse → Request → Response)
    (p : HTTPProxy) (script : ProxyScript) (hs : p.Script = some script) (res : Response) :
    Effect.scriptOnResponse res ∈ (OnResponse ToResponse p res).2 := by
  cases hR : script.OnResponse res <;> simp [OnResponse, hs, hR]

/-! ## The audit record -/

/-- Claim C6, the code at a client address with a bracketed IPv6 host,
"[::1]:54321": the one record added has the tag, method, host, path and size
the claim names, but its `To` field is "[", the text before the first colon,
not the host of the address.  For "10.0.0.5:4242" it is "10.0.0.5". -/
theorem logAction_bracketed_client :
    logAction blockingProxy
        { sampleRequest "ads.example.com" with RemoteAddr := "[::1]:54321" } blocked =
      [Effect.eventsAdd "http.proxy.spoofed-response"
        { To := "[", Method := "GET", Host := "ads.example.com", Path := "/", Size := 7 }] ∧
    logAction blockingProxy (sampleRequest "ads.example.com") blocked =
      [Effect.eventsAdd "http.proxy.spoofed-response"
        { To := "10.0.0.5", Method := "GET", Host := "ads.example.com", Path := "/",
          Size := 7 }] := by
  decide

/-! ## Configure and Stop -/

/-- `Stop` on an instance that holds a descriptor: one removal call for it; the
error of a failed removal is returned at once and the descriptor is kept; after
a successful removal the descriptor is dropped and the result is that of the
shutdown. -/
theorem Stop_of_redirection (p : HTTPProxy) (env : Env) (r : Redirection)
    (hr : p.Redirection = some r) :
    removalsOf (Stop p env).2.2 = [r] ∧
    (∀ err, env.enableRedirection r false = some err →
      (Stop p env).1 = some err ∧ (Stop p env).2.1.Redirection = some r ∧
      (Stop p env).2.2 =
        [Effect.log LogLevel.debug "Disabling redirection %s",
          Effect.enableRedirection r false]) ∧
    (env.enableRedirection r false = none →
      (Stop p env).1 = env.shutdown ∧ (Stop p env).2.1.Redirection = none ∧
      (Stop p env).2.2 =
        [Effect.log LogLevel.debug "Disabling redirection %s",
          Effect.enableRedirection r false, Effect.serverShutdown]) := by
  unfold Stop
  rw [hr]
  cases he : env.enableRedirection r false <;> simp [removalsOf, hr, he]

/-- `Stop` on an instance without a descriptor: no firewall call, only the
shutdown, whose result is returned. -/
theorem Stop_of_no_redirection (p : HTTPProxy) (env : Env) (hr : p.Redirection = none) :
    Stop p env = (env.shutdown, p, [Effect.serverShutdown]) := by
  unfold Stop
  rw [hr]

/-- A `Configure` that returns no error has made one install call, for the
descriptor built from the interface, "TCP", the public port, the address and
the proxy port, and no removal call; the instance holds that descriptor. -/
theorem Configure_success (p : HTTPProxy) (env : Env) (address : String)
    (proxyPort httpPort : Int) (scriptPath : String)
    (h : (Configure p env address proxyPort httpPort scriptPath).1 = none) :
    (Configure p env address proxyPort httpPort scriptPath).2.1.Redirection =
        some (NewRedirection p.sess.InterfaceName "TCP" httpPort address proxyPort) ∧
    installsOf (Configure p env address proxyPort httpPort scriptPath).2.2 =
        [NewRedirection p.sess.InterfaceName "TCP" httpPort address proxyPort] ∧
    removalsOf (Configure p env address proxyPort httpPort scriptPath).2.2 = [] := by
  unfold Configure configureScript at *
  by_cases hp : scriptPath = ""
  · cases hf : env.isForwardingEnabled <;>
      cases he : env.enableRedirection
        (NewRedirection p.sess.InterfaceName "TCP" httpPort address proxyPort) true <;>
      simp_all [installsOf, removalsOf]
  · cases hl : (env.loadProxyScript scriptPath).1 <;>
      cases hf : env.isForwardingEnabled <;>
      cases he : env.enableRedirection
        (NewRedirection p.sess.InterfaceName "TCP" httpPort address proxyPort) true <;>
      simp_all [installsOf, removalsOf]

/-- When the script step passes and the install call fails, `Configure`
returns the error of the install call and the instance holds the descriptor
that was not installed. -/
theorem Configure_install_failure (p : HTTPProxy) (env : Env) (address : String)
    (proxyPort httpPort : Int) (err : Error)
    (he : env.enableRedirection
      (NewRedirection p.sess.InterfaceName "TCP" httpPort address proxyPort) true = some err) :
    (Configure p env address proxyPort httpPort "").1 = some err ∧
    (Configure p env address proxyPort httpPort "").2.1.Redirection =
      some (NewRedirection p.sess.InterfaceName "TCP" httpPort address proxyPort) := by
  unfold Configure configureScript
  cases hf : env.isForwardingEnabled <;> simp_all

/-- `Configure` with an empty script path does not touch `Script`. -/
theorem Configure_empty_path_Script (p : HTTPProxy) (env : Env) (address : String)
    (proxyPort httpPort : Int) :
    (Configure p env address proxyPort httpPort "").2.1.Script = p.Script := by
  unfold Configure configureScript
  cases hf : env.isForwardingEnabled <;>
    cases he : env.enableRedirection
      (NewRedirection p.sess.InterfaceName "TCP" httpPort address proxyPort) true <;>
    simp_all

/-- `Configure` with a script path stores the script that `LoadProxyScript`
returns, on every outcome. -/
theorem Configure_path_Script (p : HTTPProxy) (env : Env) (address : String)
    (proxyPort httpPort : Int) (scriptPath : String) (hp : scriptPath ≠ "") :
    (Configure p env address proxyPort httpPort scriptPath).2.1.Script =
      (env.loadProxyScript scriptPath).2 := by
  unfold Configure configureScript
  cases hl : (env.loadProxyScript scriptPath).1 <;>
    cases hf : env.isForwardingEnabled <;>
    cases he : env.enableRedirection
      (NewRedirection p.sess.InterfaceName "TCP" httpPort address proxyPort) true <;>
    simp_all

/-- Claim C7 as stated fails at `configuredProxy` when the firewall refuses the
removal: `Stop` returns the error of the removal, and its calls are the debug
log and the removal only; the shutdown of the listener is not among them. -/
theorem Stop_removal_failure_no_shutdown :
    configuredProxy.Redirection = some (NewRedirection "eth0" "TCP" 80 "10.0.0.1" 8080) ∧
    envFirewallFails.enableRedirection (NewRedirection "eth0" "TCP" 80 "10.0.0.1" 8080) false =
      some "firewall: command failed" ∧
    (Stop configuredProxy envFirewallFails).1 = some "firewall: command failed" ∧
    ¬ (Effect.serverShutdown ∈ (Stop configuredProxy envFirewallFails).2.2) := by
  decide

/-- Claim C7, amended: when the removal of the held Redirection fails, `Stop`
returns that error to the caller at once; its calls are the debug log and the
one removal, so the listener shutdown is not attempted in that call, and the
instance keeps the descriptor. -/
theorem Stop_removal_failure (p : HTTPProxy) (env : Env) (r : Redirection) (err : Error)
    (hr : p.Redirection = some r) (he : env.enableRedirection r false = some err) :
    (Stop p env).1 = some err ∧
    (Stop p env).2.2 =
      [Effect.log LogLevel.debug "Disabling redirection %s",
        Effect.enableRedirection r false] ∧
    Effect.serverShutdown ∉ (Stop p env).2.2 ∧
    (Stop p env).2.1.Redirection = some r := by
  obtain ⟨h1, h2, h3⟩ := (Stop_of_redirection p env r hr).2.1 err he
  refine ⟨h1, h3, ?_, h2⟩
  rw [h3]
  simp

/-- Claim C7, amended, at `configuredProxy` and a firewall that refuses the
removal. -/
theorem Stop_removal_failure_witness :
    (Stop configuredProxy envFirewallFails).1 = some "firewall: command failed" ∧
    (Stop configuredProxy envFirewallFails).2.2 =
      [Effect.log LogLevel.debug "Disabling redirection %s",
        Effect.enableRedirection (NewRedirection "eth0" "TCP" 80 "10.0.0.1" 8080) false] ∧
    Effect.serverShutdown ∉ (Stop configuredProxy envFirewallFails).2.2 ∧
    (Stop configuredProxy envFirewallFails).2.1.Redirection =
      some (NewRedirection "eth0" "TCP" 80 "10.0.0.1" 8080) :=
  Stop_removal_failure configuredProxy envFirewallFails
    (NewRedirection "eth0" "TCP" 80 "10.0.0.1" 8080) "firewall: command failed" rfl rfl

/-- Claim C8: after a `Configure` that returns no error, which installed the
descriptor (interface, "TCP", public port, address, proxy port), a `Stop`
makes exactly one removal call, for that descriptor; when the removal
succeeds the instance holds no descriptor, and a second `Stop` makes no
removal call: its only call is the shutdown, whose result it returns. -/
theorem Configure_Stop_symmetry (p : HTTPProxy) (env1 : Env) (address : String)
    (proxyPort publicPort : Int) (scriptPath : String)
    (hc : (Configure p env1 address proxyPort publicPort scriptPath).1 = none) :
    installsOf (Configure p env1 address proxyPort publicPort scriptPath).2.2 =
      [NewRedirection p.sess.InterfaceName "TCP" publicPort address proxyPort] ∧
    ∀ env2 : Env,
      removalsOf (Stop (Configure p env1 address proxyPort publicPort scriptPath).2.1 env2).2.2 =
        [NewRedirection p.sess.InterfaceName "TCP" publicPort address proxyPort] ∧
      (env2.enableRedirection
          (NewRedirection p.sess.InterfaceName "TCP" publicPort address proxyPort) false = none →
        (Stop (Configure p env1 address proxyPort publicPort scriptPath).2.1 env2).2.1.Redirection
          = none ∧
        ∀ env3 : Env,
          removalsOf (Stop (Stop (Configure p env1 address proxyPort publicPort
            scriptPath).2.1 env2).2.1 env3).2.2 = [] ∧
          (Stop (Stop (Configure p env1 address proxyPort publicPort
            scriptPath).2.1 env2).2.1 env3).2.2 = [Effect.serverShutdown] ∧
          (Stop (Stop (Configure p env1 address proxyPort publicPort
            scriptPath).2.1 env2).2.1 env3).1 = env3.shutdown) := by
  obtain ⟨hred, hinst, _⟩ := Configure_success p env1 address proxyPort publicPort scriptPath hc
  refine ⟨hinst, ?_⟩
  intro env2
  have hs := Stop_of_redirection _ env2 _ hred
  refine ⟨hs.1, ?_⟩
  intro hok
  obtain ⟨_, hnone, _⟩ := hs.2.2 hok
  refine ⟨hnone, ?_⟩
  intro env3
  rw [Stop_of_no_redirection _ env3 hnone]
  exact ⟨rfl, rfl, rfl⟩

/-- Claim C8 at a fresh proxy configured for 10.0.0.1, proxy port 8080 and
public port 80 in a world where every call succeeds: the first `Stop` removes
the installed descriptor, the second makes no removal call. -/
theorem Configure_Stop_symmetry_witness :
    (Configure (NewHTTPProxy sampleSession) envOk "10.0.0.1" 8080 80 "").1 = none ∧
    removalsOf (Stop (Configure (NewHTTPProxy sampleSession) envOk "10.0.0.1" 8080 80 "").2.1
      envOk).2.2 = [NewRedirection "eth0" "TCP" 80 "10.0.0.1" 8080] ∧
    removalsOf (Stop (Stop (Configure (NewHTTPProxy sampleSession) envOk "10.0.0.1" 8080 80
      "").2.1 envOk).2.1 envOk).2.2 = [] :=
  ⟨rfl,
    ((Configure_Stop_symmetry (NewHTTPProxy sampleSession) envOk "10.0.0.1" 8080 80 "" rfl).2
      envOk).1,
    ((((Configure_Stop_symmetry (NewHTTPProxy sampleSession) envOk "10.0.0.1" 8080 80 "" rfl).2
      envOk).2 rfl).2 envOk).1⟩

/-- Claim C9, the code at a fresh proxy configured for 10.0.0.1, proxy port
8080 and public port 80 when the firewall refuses the install: `Configure`
returns the error, yet the instance holds the descriptor that was never
installed, and a later `Stop` makes a removal call for it. -/
theorem Configure_failure_keeps_descriptor :
    (Configure (NewHTTPProxy sampleSession) envFirewallFails "10.0.0.1" 8080 80 "").1 =
      some "firewall: command failed" ∧
    installsOf (Configure (NewHTTPProxy sampleSession) envFirewallFails "10.0.0.1" 8080 80
      "").2.2 = [NewRedirection "eth0" "TCP" 80 "10.0.0.1" 8080] ∧
    (Configure (NewHTTPProxy sampleSession) envFirewallFails "10.0.0.1" 8080 80
      "").2.1.Redirection = some (NewRedirection "eth0" "TCP" 80 "10.0.0.1" 8080) ∧
    removalsOf (Stop (Configure (NewHTTPProxy sampleSession) envFirewallFails "10.0.0.1" 8080 80
      "").2.1 envOk).2.2 = [NewRedirection "eth0" "TCP" 80 "10.0.0.1" 8080] := by
  decide

/-- Claim C10 as stated fails, in its last sentence: an instance that is not
fresh can be left without a hook by `Configure` with an empty script path.
`scriptedProxy` has a script and its request handler invokes the hook; a
`Configure` with "missing.js" whose load fails returns the error and stores the
nil script; the instance after that call is not a fresh one, and `Configure`
with the empty path leaves it without a hook, its handlers in pass-through. -/
theorem Configure_empty_path_not_fresh_no_hook :
    Effect.scriptOnRequest (sampleRequest "example.com") ∈
      (OnRequest sampleToResponse scriptedProxy (sampleRequest "example.com")).2 ∧
    (Configure scriptedProxy envLoadFails "10.0.0.1" 8080 80 "missing.js").1 =
      some "script: cannot load" ∧
    (¬ ∃ s : Session, failedReloadProxy = NewHTTPProxy s) ∧
    (Configure failedReloadProxy envOk "10.0.0.1" 8080 80 "").1 = none ∧
    (Configure failedReloadProxy envOk "10.0.0.1" 8080 80 "").2.1.Script = none ∧
    OnRequest sampleToResponse (Configure failedReloadProxy envOk "10.0.0.1" 8080 80 "").2.1
      (sampleRequest "example.com") = ((sampleRequest "example.com", none), []) ∧
    OnResponse sampleToResponse (Configure failedReloadProxy envOk "10.0.0.1" 8080 80 "").2.1
      (sampleResponse "example.com") = (sampleResponse "example.com", []) := by
  refine ⟨by decide, by decide, ?_, by decide, rfl, by decide, by decide⟩
  rintro ⟨s, h⟩
  have ha : failedReloadProxy.Address = (NewHTTPProxy s).Address := congrArg HTTPProxy.Address h
  have hb : failedReloadProxy.Address = "" := ha
  revert hb
  decide

/-- Claim C10, amended: `Configure` with an empty script path leaves `Script`
as it was, so both handlers behave as before the call and, when a script was
set, keep invoking its hooks; an instance configured with a script path that
loaded a script and then with the empty path still has that script.  The
instance has no hook afterwards exactly when it had none before the call: a
fresh instance, or one whose last script load stored no script. -/
theorem Configure_empty_path_keeps_script (ToResponse : JSResponse → Request → Response)
    (p : HTTPProxy) (env : Env) (address : String) (proxyPort httpPort : Int) :
    (Configure p env address proxyPort httpPort "").2.1.Script = p.Script ∧
    (∀ req, OnRequest ToResponse (Configure p env address proxyPort httpPort "").2.1 req =
      OnRequest ToResponse p req) ∧
    (∀ res, OnResponse ToResponse (Configure p env address proxyPort httpPort "").2.1 res =
      OnResponse ToResponse p res) ∧
    (∀ script, p.Script = some script → ∀ req res,
      Effect.scriptOnRequest req ∈
        (OnRequest ToResponse (Configure p env address proxyPort httpPort "").2.1 req).2 ∧
      Effect.scriptOnResponse res ∈
        (OnResponse ToResponse (Configure p env address proxyPort httpPort "").2.1 res).2) ∧
    ((Configure p env address proxyPort httpPort "").2.1.Script = none ↔ p.Script = none) ∧
    (∀ s : Session,
      (Configure (NewHTTPProxy s) env address proxyPort httpPort "").2.1.Script = none) ∧
    (∀ (env0 : Env) (address0 : String) (proxyPort0 httpPort0 : Int) (path : String)
        (script : ProxyScript),
      path ≠ "" → env0.loadProxyScript path = (none, some script) →
      (Configure (Configure p env0 address0 proxyPort0 httpPort0 path).2.1 env address
        proxyPort httpPort "").2.1.Script = some script) ∧
    (∀ (env0 : Env) (address0 : String) (proxyPort0 httpPort0 : Int) (path : String),
      path ≠ "" → (env0.loadProxyScript path).2 = none →
      (Configure (Configure p env0 address0 proxyPort0 httpPort0 path).2.1 env address
        proxyPort httpPort "").2.1.Script = none ∧
      ∀ req res,
        OnRequest ToResponse (Configure (Configure p env0 address0 proxyPort0 httpPort0
          path).2.1 env address proxyPort httpPort "").2.1 req = ((req, none), []) ∧
        OnResponse ToResponse (Configure (Configure p env0 address0 proxyPort0 httpPort0
          path).2.1 env address proxyPort httpPort "").2.1 res = (res, [])) := by
  have key := Configure_empty_path_Script p env address proxyPort httpPort
  refine ⟨key, ?_, ?_, ?_, ?_, ?_, ?_, ?_⟩
  · intro req
    exact OnRequest_congr ToResponse _ _ key req
  · intro res
    exact OnResponse_congr ToResponse _ _ key res
  · intro script hs req res
    exact ⟨(OnRequest_invokes_hook ToResponse _ script (key.trans hs) req).1,
      OnResponse_invokes_hook ToResponse _ script (key.trans hs) res⟩
  · rw [key]
  · intro s
    rw [Configure_empty_path_Script]
    rfl
  · intro env0 address0 proxyPort0 httpPort0 path script hp hl
    rw [Configure_empty_path_Script, Configure_path_Script _ _ _ _ _ _ hp, hl]
  · intro env0 address0 proxyPort0 httpPort0 path hp hl
    have hn : (Configure (Configure p env0 address0 proxyPort0 httpPort0 path).2.1 env address
        proxyPort httpPort "").2.1.Script = none := by
      rw [Configure_empty_path_Script, Configure_path_Script _ _ _ _ _ _ hp, hl]
    refine ⟨hn, ?_⟩
    intro req res
    simp [OnRequest, OnResponse, hn]

end Bettercap
